import Mathlib

/-!
Shallow embedding of the `voting_token` ink! contract
(`src/contracts/voting_token/lib.rs`).

The contract state is a record of two strings, one scalar and three
hash maps.  The source's `u256` amounts are modelled as unbounded
natural numbers: the spec treats `Amount` as a wide unsigned integer
whose overflow is a hard abort rather than wraparound, and every
subtraction in the source is guarded by a comparison, so no operation
below ever truncates.  `StorageHashMap` is modelled as an association
list with overwrite-on-insert and default value `0` on lookup
(`unwrap_or(0)` in the source).  Account identifiers are opaque keys
with decidable equality, modelled as `Nat`.
-/

abbrev AccountId := Nat

/-- Lookup in the hash-map model: the stored value, or `0` when the key
is absent (`self.m.get(&k).copied().unwrap_or(0)` in the source). -/
def hmGet {α : Type} [DecidableEq α] : List (α × Nat) → α → Nat
  | [], _ => 0
  | (k', v) :: rest, k => if k' = k then v else hmGet rest k

/-- Insert in the hash-map model: overwrite any previous binding of the
key (`self.m.insert(k, v)` in the source). -/
def hmInsert {α : Type} [DecidableEq α] (m : List (α × Nat)) (k : α) (v : Nat) :
    List (α × Nat) :=
  (k, v) :: m.filter (fun p => ! decide (p.1 = k))

/-- Sum of all values recorded in the hash-map model. -/
def hmSum {α : Type} (m : List (α × Nat)) : Nat :=
  (m.map Prod.snd).sum

/-- State of the `VotingToken` contract: the `#[ink(storage)]` struct. -/
structure VotingToken where
  name : String
  symbol : String
  total_supply : Nat
  balance_of : List (AccountId × Nat)
  allowance : List ((AccountId × AccountId) × Nat)
  deposit_of : List ((AccountId) × Nat)

/-- Constructor `new(name, symbol, initial_supply)`: the caller is
credited with the whole initial supply, their deposit record is set to
`0`, the allowance map starts empty. -/
def VotingToken.new (caller : AccountId) (name symbol : String)
    (initial_supply : Nat) : VotingToken :=
  { name := name
    symbol := symbol
    total_supply := initial_supply
    balance_of := hmInsert [] caller initial_supply
    allowance := []
    deposit_of := hmInsert [] caller 0 }

/-- Message `deposit()`: `caller` and `deposit_amount` are the values
the host environment supplies via `Self::env().caller()` and
`Self::env().transferred_balance()`.  Records the deposit (overwrite),
computes `total_tokens_received = deposit_amount * 1000 / 10^18`,
overwrites the caller's balance with it and adds it to the total
supply. -/
def VotingToken.deposit (s : VotingToken) (caller : AccountId)
    (deposit_amount : Nat) : VotingToken :=
  let s := { s with deposit_of := hmInsert s.deposit_of caller deposit_amount }
  let total_tokens_received := deposit_amount * 1000 / 10 ^ 18
  let s := { s with balance_of := hmInsert s.balance_of caller total_tokens_received }
  { s with total_supply := s.total_supply + total_tokens_received }

/-- Internal helper `_transfer(from, to_, value)`.  Both balances are
read before any write, exactly as in the source; on insufficient
balance it returns `false` with no mutation, otherwise it inserts
`from ↦ from_balance - value` and then `to_ ↦ to_balance + value`. -/
def VotingToken._transfer (s : VotingToken) (from_ to_ : AccountId)
    (value : Nat) : VotingToken × Bool :=
  let from_balance := hmGet s.balance_of from_
  let to_balance := hmGet s.balance_of to_
  if from_balance < value then
    (s, false)
  else
    let s := { s with balance_of := hmInsert s.balance_of from_ (from_balance - value) }
    let s := { s with balance_of := hmInsert s.balance_of to_ (to_balance + value) }
    (s, true)

/-- Message `transfer(to_, value)`: `_transfer` with `from` = the
caller. -/
def VotingToken.transfer (s : VotingToken) (caller to_ : AccountId)
    (value : Nat) : VotingToken × Bool :=
  s._transfer caller to_ value

/-- Message `approve(spender, value)`: unconditionally overwrite the
`(caller, spender)` allowance and return `true`. -/
def VotingToken.approve (s : VotingToken) (caller spender : AccountId)
    (value : Nat) : VotingToken × Bool :=
  ({ s with allowance := hmInsert s.allowance (caller, spender) value }, true)

/-- Message `transfer_from(from, to_, value)` invoked by `caller`: reads
the `(from, caller)` allowance, fails with no mutation if it is below
`value`, otherwise decrements it and then calls `_transfer`; the
decrement is not rolled back when `_transfer` fails. -/
def VotingToken.transfer_from (s : VotingToken) (caller from_ to_ : AccountId)
    (value : Nat) : VotingToken × Bool :=
  let allowance := hmGet s.allowance (from_, caller)
  if allowance < value then
    (s, false)
  else
    let s := { s with allowance := hmInsert s.allowance (from_, caller) (allowance - value) }
    s._transfer from_ to_ value

/-- Query `get_name()`. -/
def get_name (s : VotingToken) : String := s.name

/-- Query `get_symbol()`. -/
def get_symbol (s : VotingToken) : String := s.symbol

/-- Query `get_total_supply()`. -/
def get_total_supply (s : VotingToken) : Nat := s.total_supply

/-- Query `get_balance(account)`: absent key reads as `0`. -/
def get_balance (s : VotingToken) (account : AccountId) : Nat :=
  hmGet s.balance_of account

/-- Query `get_allowance(owner, spender)`: absent key reads as `0`. -/
def get_allowance (s : VotingToken) (owner spender : AccountId) : Nat :=
  hmGet s.allowance (owner, spender)

/-- Query `get_deposit(account)`: absent key reads as `0`. -/
def get_deposit (s : VotingToken) (account : AccountId) : Nat :=
  hmGet s.deposit_of account

/-- One invocation of an exposed mutating operation, together with the
caller identity and attached value the host supplies. -/
inductive Op where
  | deposit (caller : AccountId) (amount : Nat)
  | transfer (caller to_ : AccountId) (value : Nat)
  | approve (caller spender : AccountId) (value : Nat)
  | transferFrom (caller from_ to_ : AccountId) (value : Nat)

/-- Apply one exposed operation to the state, discarding the returned
boolean. -/
def applyOp (s : VotingToken) : Op → VotingToken
  | .deposit caller amount => s.deposit caller amount
  | .transfer caller to_ value => (s.transfer caller to_ value).1
  | .approve caller spender value => (s.approve caller spender value).1
  | .transferFrom caller from_ to_ value => (s.transfer_from caller from_ to_ value).1

/-- Apply a sequence of exposed operations. -/
def execOps (s : VotingToken) (ops : List Op) : VotingToken :=
  ops.foldl applyOp s

/-! ## Hash-map model lemmas -/

/-- Filtering out the bindings of a key does not change lookup at any
other key. -/
theorem hmGet_filter_ne {α : Type} [DecidableEq α] (m : List (α × Nat)) (k k' : α)
    (h : k' ≠ k) :
    hmGet (m.filter (fun p => ! decide (p.1 = k))) k' = hmGet m k' := by
  induction m with
  | nil => rfl
  | cons p rest ih =>
    obtain ⟨a, w⟩ := p
    by_cases hak : a = k
    · subst hak
      have hne : ¬ a = k' := fun hc => h hc.symm
      simp [hmGet, List.filter, hne, ih]
    · by_cases hak' : a = k'
      · simp [hmGet, List.filter, hak, hak', h]
      · simp [hmGet, List.filter, hak, hak', ih]

/-- Lookup after overwrite-insert: the new value at the inserted key,
the old map's value elsewhere. -/
theorem hmGet_hmInsert {α : Type} [DecidableEq α] (m : List (α × Nat)) (k k' : α)
    (v : Nat) :
    hmGet (hmInsert m k v) k' = if k = k' then v else hmGet m k' := by
  by_cases h : k = k'
  · simp [hmInsert, hmGet, h]
  · have h' : k' ≠ k := fun hc => h hc.symm
    simp [hmInsert, hmGet, h, hmGet_filter_ne m k k' h']

/-! ## Frame lemmas for the operations -/

/-- Helper `_transfer` never touches the total supply. -/
theorem total_supply_after_transfer (s : VotingToken) (from_ to_ : AccountId)
    (value : Nat) :
    (s._transfer from_ to_ value).1.total_supply = s.total_supply := by
  unfold VotingToken._transfer
  by_cases h : hmGet s.balance_of from_ < value <;> simp [h]

/-- Helper `_transfer` never touches the allowance map. -/
theorem allowance_after_transfer (s : VotingToken) (from_ to_ : AccountId)
    (value : Nat) :
    (s._transfer from_ to_ value).1.allowance = s.allowance := by
  unfold VotingToken._transfer
  by_cases h : hmGet s.balance_of from_ < value <;> simp [h]

/-- Message `transfer_from` never touches the total supply. -/
theorem total_supply_after_transfer_from (s : VotingToken)
    (caller from_ to_ : AccountId) (value : Nat) :
    (s.transfer_from caller from_ to_ value).1.total_supply = s.total_supply := by
  unfold VotingToken.transfer_from
  by_cases h : hmGet s.allowance (from_, caller) < value
  · simp [h]
  · simp [h, total_supply_after_transfer]

/-! ## Claim theorems -/

/-- Claim C1 (amended): with `get_balance(from) = b`, if `value > b` then
`transfer` returns `false` and every balance is unchanged; if `value ≤ b`
and `from ≠ to` then it returns `true`, `from`'s balance decreases by
exactly `value` and `to`'s balance increases by exactly `value`.  (The
restriction `from ≠ to` is forced: on a self-transfer the code instead
increases the balance by `value`, see the counterexample.) -/
theorem transfer_spec (s : VotingToken) (caller to_ : AccountId) (value : Nat) :
    (get_balance s caller < value →
      (s.transfer caller to_ value).2 = false ∧
      ∀ a, get_balance (s.transfer caller to_ value).1 a = get_balance s a) ∧
    (value ≤ get_balance s caller → caller ≠ to_ →
      (s.transfer caller to_ value).2 = true ∧
      get_balance (s.transfer caller to_ value).1 caller
        = get_balance s caller - value ∧
      get_balance (s.transfer caller to_ value).1 to_
        = get_balance s to_ + value) := by
  constructor
  · intro h
    have h' : hmGet s.balance_of caller < value := h
    unfold VotingToken.transfer VotingToken._transfer
    simp [h']
  · intro h hne
    have h' : ¬ hmGet s.balance_of caller < value := Nat.not_lt.mpr h
    unfold VotingToken.transfer VotingToken._transfer
    simp only [h', if_neg h', get_balance]
    refine ⟨rfl, ?_, ?_⟩
    · show hmGet (hmInsert (hmInsert s.balance_of caller _) to_ _) caller = _
      rw [hmGet_hmInsert, if_neg (fun hc => hne hc.symm), hmGet_hmInsert, if_pos rfl]
    · show hmGet (hmInsert (hmInsert s.balance_of caller _) to_ _) to_ = _
      rw [hmGet_hmInsert, if_pos rfl]

/-- Witness for the claim C1 theorem: from the constructed state with
balance 100, transferring 30 to another account succeeds and moves
exactly 30. -/
theorem transfer_spec_witness :
    ((VotingToken.new 0 "n" "s" 100).transfer 0 1 30).2 = true ∧
    get_balance ((VotingToken.new 0 "n" "s" 100).transfer 0 1 30).1 0
      = get_balance (VotingToken.new 0 "n" "s" 100) 0 - 30 ∧
    get_balance ((VotingToken.new 0 "n" "s" 100).transfer 0 1 30).1 1
      = get_balance (VotingToken.new 0 "n" "s" 100) 1 + 30 :=
  (transfer_spec (VotingToken.new 0 "n" "s" 100) 0 1 30).2 (by decide) (by decide)

/-- Counterexample to claim C1 as stated: a self-transfer of 50 from a
balance of 100 satisfies `value ≤ b` and returns `true`, but the
balance does not decrease by 50 (it becomes 150). -/
theorem transfer_spec_counterexample :
    50 ≤ get_balance (VotingToken.new 0 "n" "s" 100) 0 ∧
    ((VotingToken.new 0 "n" "s" 100).transfer 0 0 50).2 = true ∧
    ¬ (get_balance ((VotingToken.new 0 "n" "s" 100).transfer 0 0 50).1 0
        = get_balance (VotingToken.new 0 "n" "s" 100) 0 - 50) := by decide

/-- Claim C2 (code bug): a self-transfer with sufficient balance is NOT
balance-preserving.  From a balance of 100, `_transfer(a, a, 50)`
returns `true` but leaves the balance at 150: the debit is overwritten
by a credit computed from the stale pre-debit reading. -/
theorem self_transfer_double_credit :
    get_balance (VotingToken.new 0 "n" "s" 100) 0 = 100 ∧
    ((VotingToken.new 0 "n" "s" 100)._transfer 0 0 50).2 = true ∧
    get_balance ((VotingToken.new 0 "n" "s" 100)._transfer 0 0 50).1 0 = 150 := by
  decide

/-- Claim C3 (amended): `deposit` overwrites the caller's deposit record
with the transferred amount, overwrites (does not add to) the caller's
balance with `minted = amount * 1000 / 10^18`, and increases the total
supply by exactly `minted`.  Concretely a deposit of `10^17` sets the
deposit record to `10^17` and mints 100 tokens (not 1000: the
correction forced by the counterexample), and a second deposit of
`2 * 10^17` by the same caller sets the balance to 200 while increasing
the total supply by 200. -/
theorem deposit_spec :
    (∀ (s : VotingToken) (caller : AccountId) (amount : Nat),
      get_deposit (s.deposit caller amount) caller = amount ∧
      get_balance (s.deposit caller amount) caller = amount * 1000 / 10 ^ 18 ∧
      get_total_supply (s.deposit caller amount)
        = get_total_supply s + amount * 1000 / 10 ^ 18) ∧
    get_deposit ((VotingToken.new 0 "n" "s" 0).deposit 1 (10 ^ 17)) 1 = 10 ^ 17 ∧
    get_balance ((VotingToken.new 0 "n" "s" 0).deposit 1 (10 ^ 17)) 1 = 100 ∧
    get_balance (((VotingToken.new 0 "n" "s" 0).deposit 1 (10 ^ 17)).deposit 1
      (2 * 10 ^ 17)) 1 = 200 ∧
    get_total_supply (((VotingToken.new 0 "n" "s" 0).deposit 1 (10 ^ 17)).deposit 1
        (2 * 10 ^ 17))
      = get_total_supply ((VotingToken.new 0 "n" "s" 0).deposit 1 (10 ^ 17)) + 200 := by
  refine ⟨fun s caller amount => ?_, by decide, by decide, by decide, by decide⟩
  unfold VotingToken.deposit
  refine ⟨?_, ?_, rfl⟩
  · simp [get_deposit, hmGet_hmInsert]
  · simp [get_balance, hmGet_hmInsert]

/-- Counterexample to claim C3 as stated: a deposit of `10^17` mints 100
tokens, not 1000 (`10^17 * 1000 / 10^18 = 100`). -/
theorem deposit_spec_counterexample :
    get_balance ((VotingToken.new 0 "n" "s" 0).deposit 1 (10 ^ 17)) 1 = 100 ∧
    ¬ (get_balance ((VotingToken.new 0 "n" "s" 0).deposit 1 (10 ^ 17)) 1 = 1000) := by
  decide

/-- Claim C4 (confirmed): when the allowance covers `value` but the
balance of `from` does not, `transfer_from` returns `false` and leaves
every balance unchanged, yet the `(from, caller)` allowance has been
decremented by `value` and is not restored. -/
theorem transfer_from_allowance_leak
    (s : VotingToken) (caller from_ to_ : AccountId) (value : Nat)
    (hA : value ≤ get_allowance s from_ caller)
    (hB : get_balance s from_ < value) :
    (s.transfer_from caller from_ to_ value).2 = false ∧
    (∀ a, get_balance (s.transfer_from caller from_ to_ value).1 a
      = get_balance s a) ∧
    get_allowance (s.transfer_from caller from_ to_ value).1 from_ caller
      = get_allowance s from_ caller - value := by
  have hA' : ¬ hmGet s.allowance (from_, caller) < value := Nat.not_lt.mpr hA
  have hB' : hmGet s.balance_of from_ < value := hB
  unfold VotingToken.transfer_from VotingToken._transfer
  simp only [hA', if_neg hA', get_balance, get_allowance]
  simp only [hB', if_pos hB', ite_true, if_true]
  refine ⟨rfl, fun a => rfl, ?_⟩
  show hmGet (hmInsert s.allowance (from_, caller) _) (from_, caller) = _
  rw [hmGet_hmInsert, if_pos rfl]

/-- Witness for the claim C4 theorem: owner 1 approves spender 2 for 10
but has balance 0; spender 2 attempts to move 5 from owner 1: the call
fails, balances stay put, and the allowance drops from 10 to 5. -/
theorem transfer_from_allowance_leak_witness :
    ((((VotingToken.new 0 "n" "s" 0).approve 1 2 10).1).transfer_from 2 1 3 5).2
      = false ∧
    get_balance (((((VotingToken.new 0 "n" "s" 0).approve 1 2 10).1).transfer_from
        2 1 3 5)).1 1
      = get_balance (((VotingToken.new 0 "n" "s" 0).approve 1 2 10).1) 1 ∧
    get_allowance (((((VotingToken.new 0 "n" "s" 0).approve 1 2 10).1).transfer_from
        2 1 3 5)).1 1 2
      = get_allowance (((VotingToken.new 0 "n" "s" 0).approve 1 2 10).1) 1 2 - 5 := by
  have h := transfer_from_allowance_leak (((VotingToken.new 0 "n" "s" 0).approve 1 2 10).1)
    2 1 3 5 (by decide) (by decide)
  exact ⟨h.1, h.2.1 1, h.2.2⟩

/-- Claim C5 (confirmed): when the `(from, caller)` allowance is below
`value`, `transfer_from` returns `false` and mutates nothing: every
balance, every allowance, every deposit record and the total supply are
unchanged. -/
theorem transfer_from_insufficient_allowance
    (s : VotingToken) (caller from_ to_ : AccountId) (value : Nat)
    (h : get_allowance s from_ caller < value) :
    (s.transfer_from caller from_ to_ value).2 = false ∧
    (∀ a, get_balance (s.transfer_from caller from_ to_ value).1 a
      = get_balance s a) ∧
    (∀ o sp, get_allowance (s.transfer_from caller from_ to_ value).1 o sp
      = get_allowance s o sp) ∧
    (∀ a, get_deposit (s.transfer_from caller from_ to_ value).1 a
      = get_deposit s a) ∧
    get_total_supply (s.transfer_from caller from_ to_ value).1
      = get_total_supply s := by
  have h' : hmGet s.allowance (from_, caller) < value := h
  have hst : s.transfer_from caller from_ to_ value = (s, false) := by
    unfold VotingToken.transfer_from
    simp [h']
  rw [hst]
  exact ⟨rfl, fun a => rfl, fun o sp => rfl, fun a => rfl, rfl⟩

/-- Witness for the claim C5 theorem: owner 0 approved spender 1 for
100; spender 1 attempts to move 150 from owner 0 to account 2: the call
fails and the observable state is untouched. -/
theorem transfer_from_insufficient_allowance_witness :
    ((((VotingToken.new 0 "n" "s" 1000).approve 0 1 100).1).transfer_from 1 0 2 150).2
      = false ∧
    get_balance (((((VotingToken.new 0 "n" "s" 1000).approve 0 1 100).1).transfer_from
        1 0 2 150)).1 0
      = get_balance (((VotingToken.new 0 "n" "s" 1000).approve 0 1 100).1) 0 ∧
    get_allowance (((((VotingToken.new 0 "n" "s" 1000).approve 0 1 100).1).transfer_from
        1 0 2 150)).1 0 1
      = get_allowance (((VotingToken.new 0 "n" "s" 1000).approve 0 1 100).1) 0 1 ∧
    get_total_supply (((((VotingToken.new 0 "n" "s" 1000).approve 0 1 100).1).transfer_from
        1 0 2 150)).1
      = get_total_supply (((VotingToken.new 0 "n" "s" 1000).approve 0 1 100).1) := by
  have h := transfer_from_insufficient_allowance
    (((VotingToken.new 0 "n" "s" 1000).approve 0 1 100).1) 1 0 2 150 (by decide)
  exact ⟨h.1, h.2.1 0, h.2.2.1 0 1, h.2.2.2.2⟩

/-- Claim C6 (code bug): the invariant "total supply ≥ sum of recorded
balances" is violated in a reachable state.  After construction with
supply 100 followed by a self-transfer of 50, the total supply is still
100 but the balance map sums to 150 (the self-transfer double-credit
mints 50 out of thin air). -/
theorem supply_invariant_violated :
    get_total_supply (execOps (VotingToken.new 0 "n" "s" 100) [Op.transfer 0 0 50])
      = 100 ∧
    hmSum (execOps (VotingToken.new 0 "n" "s" 100) [Op.transfer 0 0 50]).balance_of
      = 150 ∧
    ¬ (hmSum (execOps (VotingToken.new 0 "n" "s" 100)
          [Op.transfer 0 0 50]).balance_of
        ≤ get_total_supply (execOps (VotingToken.new 0 "n" "s" 100)
          [Op.transfer 0 0 50])) := by
  decide

/-- Claim C7 (confirmed): no exposed operation ever decreases the total
supply. -/
theorem total_supply_monotone (s : VotingToken) (op : Op) :
    get_total_supply s ≤ get_total_supply (applyOp s op) := by
  cases op with
  | deposit caller amount =>
      show s.total_supply ≤ (s.deposit caller amount).total_supply
      unfold VotingToken.deposit
      exact Nat.le_add_right _ _
  | transfer caller to_ value =>
      show s.total_supply ≤ ((s.transfer caller to_ value).1).total_supply
      rw [VotingToken.transfer, total_supply_after_transfer]
  | approve caller spender value =>
      exact Nat.le_refl _
  | transferFrom caller from_ to_ value =>
      show s.total_supply ≤ ((s.transfer_from caller from_ to_ value).1).total_supply
      rw [total_supply_after_transfer_from]

/-- Claim C8 (confirmed): `approve` always returns `true`, and a second
`approve` for the same (owner, spender) pair overwrites the first value
rather than adding to it. -/
theorem approve_overwrites (s : VotingToken) (owner spender : AccountId)
    (v1 v2 : Nat) :
    (s.approve owner spender v1).2 = true ∧
    get_allowance ((s.approve owner spender v1).1.approve owner spender v2).1
      owner spender = v2 := by
  refine ⟨rfl, ?_⟩
  show hmGet (hmInsert (hmInsert s.allowance _ v1) _ v2) _ = v2
  rw [hmGet_hmInsert, if_pos rfl]

/-- Claim C9 (confirmed): after construction by caller C with name n,
symbol sym and initial supply, the total supply and C's balance equal
the initial supply, C's deposit record is 0, the metadata queries
return n and sym, and every allowance is 0.  The constructor is a total
function: it has no failure modes. -/
theorem construct_spec (caller : AccountId) (n sym : String) (supply : Nat) :
    get_total_supply (VotingToken.new caller n sym supply) = supply ∧
    get_balance (VotingToken.new caller n sym supply) caller = supply ∧
    get_deposit (VotingToken.new caller n sym supply) caller = 0 ∧
    get_name (VotingToken.new caller n sym supply) = n ∧
    get_symbol (VotingToken.new caller n sym supply) = sym ∧
    ∀ o sp, get_allowance (VotingToken.new caller n sym supply) o sp = 0 := by
  refine ⟨rfl, ?_, ?_, rfl, rfl, fun o sp => rfl⟩
  · show hmGet (hmInsert [] caller supply) caller = supply
    rw [hmGet_hmInsert, if_pos rfl]
  · show hmGet (hmInsert [] caller 0) caller = 0
    rw [hmGet_hmInsert, if_pos rfl]

/-- Claim C10 (confirmed): a dust deposit (`amount * 1000 < 10^18`, so
the minted quantity truncates to 0) by a caller holding a positive
balance overwrites that balance with 0, erasing it, while the total
supply is unchanged. -/
theorem dust_deposit_erases_balance (s : VotingToken) (caller : AccountId)
    (amount : Nat) (_hb : 0 < get_balance s caller)
    (hamt : amount * 1000 < 10 ^ 18) :
    get_balance (s.deposit caller amount) caller = 0 ∧
    get_total_supply (s.deposit caller amount) = get_total_supply s := by
  have hm : amount * 1000 / 10 ^ 18 = 0 := Nat.div_eq_of_lt hamt
  unfold VotingToken.deposit
  constructor
  · show hmGet (hmInsert s.balance_of caller (amount * 1000 / 10 ^ 18)) caller = 0
    rw [hmGet_hmInsert, if_pos rfl, hm]
  · show s.total_supply + amount * 1000 / 10 ^ 18 = s.total_supply
    rw [hm, Nat.add_zero]

/-- Witness for the claim C10 theorem: the constructing caller holds 5
tokens; a deposit of 7 units (well below the `10^15` threshold) zeroes
the balance and leaves the supply at its old value. -/
theorem dust_deposit_erases_balance_witness :
    get_balance ((VotingToken.new 0 "n" "s" 5).deposit 0 7) 0 = 0 ∧
    get_total_supply ((VotingToken.new 0 "n" "s" 5).deposit 0 7)
      = get_total_supply (VotingToken.new 0 "n" "s" 5) :=
  dust_deposit_erases_balance (VotingToken.new 0 "n" "s" 5) 0 7 (by decide) (by decide)
